import Mathlib

/-!
Verification of the ClubDev gamification engine
(`app/services/gamification_service.py`) against its design description.

Modeling conventions, applied uniformly:

* UUIDs are modeled as `Nat` identifiers; timestamps are `Nat` minutes
  since 1970-01-01 00:00 UTC.  No calendar arithmetic is modeled, because
  no window computation of the service is ever reached (see below).
* Database tables are in-memory lists of rows carrying the columns of
  `app/db/models.py` that the reachable code reads or writes.  Generated
  UUID primary keys of rows the service would insert are not modeled.
* Python exceptions are the `PyExn` type; an
  `except Exception: raise DatabaseError(...)` handler is the function
  `wrapDatabaseError`, mapping any escaping exception to `databaseError`.
* The source's failure points are embedded faithfully rather than
  idealized:
  - Line 109 of the service evaluates `Script.is_syntax_sorcerer`, but the
    `Script` model (models.py:463-484) has no such column (nor
    `is_innovative` / `is_trailblazing` / `is_collaborative`; its `views`
    and `likes` are ORM relationships, not numeric columns).  The plain
    class-attribute lookup raises `AttributeError` inside the `try` block
    of `check_and_award_trophies_and_challenges`, and the handler at line
    217 re-raises `DatabaseError`.  This happens on every call, for every
    user, after line 108's well-formed count and before any further
    metric, any award staging, and any `commit()`: the evaluation never
    succeeds and never writes.
  - `_award_item` (lines 42-52) constructs `Trophy(name=..., user_id=...)`
    leaving `description`, `trophy_level` and `status` unset although all
    three are `nullable=False` without defaults (models.py:311-320), so
    the INSERT violates NOT NULL at `commit()`, `_award_item` rolls back
    and raises `DatabaseError`: `award_trophy` never inserts a row.
  - The predicates at lines 224-252 order by `desc(Script.views)` /
    `desc(Script.likes)`, which are relationships, not columns; the
    ordering expression cannot be built into a valid query, the attempt
    raises, and each predicate's own handler wraps the error into
    `DatabaseError`: neither predicate ever returns a boolean.
  - `award_user_badge` (lines 372-380) uses only real columns
    (`UserBadge.user_id`, `UserBadge.badge_id`, `User.user_badges_count`)
    and does succeed — with no existence check and no uniqueness
    constraint on (user, badge).
* The rule chains of lines 122-199 are additionally embedded as pure
  functions of their local metric variables (a `Snapshot` record) so that
  their comparison operators can be examined; in the program those lines
  are dead code, unreachable behind the line-109 failure.
-/

namespace ClubDev

/-- The error taxonomy of `core/exceptions.py` plus the raw Python and
SQLAlchemy exceptions the service can hit: `AttributeError` from reading
a nonexistent ORM column or dereferencing `None`, `ArgumentError` from
coercing a relationship into an ORDER BY clause, `TypeError` from
comparing `None` with an integer, and the two declared exception
classes. -/
inductive PyExn where
  | typeError
  | attributeError
  | argumentError
  | itemNotFoundError
  | databaseError
deriving DecidableEq, Repr

/-! ## Data model

Rows carry the columns of `app/db/models.py` that the reachable code of
`gamification_service.py` reads or writes. -/

/-- A `Script` row: the real columns the service's reachable code can
touch (`author_id`, `language`, `created_at`).  The model has no
`is_syntax_sorcerer` / `is_innovative` / `is_trailblazing` /
`is_collaborative` columns, and `views` / `likes` are relationships, so
none of those appear here. -/
structure ScriptRow where
  authorId : Nat
  language : String
  createdAt : Nat
deriving DecidableEq, Repr

/-- A `Trophy` row restricted to the columns the getters read (`id`,
`name`, `user_id`). -/
structure TrophyRow where
  id : Nat := 0
  name : String
  userId : Nat
deriving DecidableEq, Repr

/-- A `Challenge` catalog row restricted to real columns (`id`, `name`,
`reward`); the table has no `user_id` column (models.py:109-118). -/
structure ChallengeRow where
  id : Nat := 0
  name : String
  reward : String
deriving DecidableEq, Repr

/-- A `UserBadge` join row (`user_id`, `badge_id`). -/
structure UserBadgeRow where
  userId : Nat
  badgeId : Nat
deriving DecidableEq, Repr

/-- A `User` row restricted to the real denormalized counters the
reachable code touches (`trophies_count`, `user_badges_count`). -/
structure UserRow where
  id : Nat
  trophiesCount : Nat
  userBadgesCount : Nat
deriving DecidableEq, Repr

/-- The database state: one list per table the service touches through
reachable code. -/
structure Db where
  scripts : List ScriptRow
  trophies : List TrophyRow
  challenges : List ChallengeRow
  userBadges : List UserBadgeRow
  users : List UserRow
deriving DecidableEq, Repr

/-- The threshold configuration (`thresholds.json`, loaded in
`core/config.py`): an opaque name-to-integer mapping, one field per key
the service reads. -/
structure Thresholds where
  rookieContributor : Nat
  syntaxSorcerer : Nat
  crossLanguageWizard : Nat
  popularCreator : Nat
  mastermind : Nat
  reviewer : Nat
  bugHunter : Nat
  helper : Nat
  blogWriter : Nat
  popularBlogger : Nat
  prolificBlogger : Nat
  blogInfluencer : Nat
  bronze : Nat
  silver : Nat
  gold : Nat
  polymath : Nat
  innovator : Nat
  trailblazer : Nat
  collaborator : Nat
  dailyUpload : Nat
  weeklyUpvoter : Nat
  prolificBloggerMonth : Nat
  blogInfluencerMonth : Nat
deriving DecidableEq, Repr

/-! ## The evaluation orchestrator (lines 105-218) -/

/-- Line 108: `_get_count(Script, user_id)` — a count over real columns
(`Script.id`, `Script.author_id`), the only metric of the aggregation
phase whose query expressions are well-formed attribute references. -/
def scriptCount (db : Db) (uid : Nat) : Nat :=
  (db.scripts.filter (fun s => s.authorId == uid)).length

/-- Line 109: the filter expression `Script.is_syntax_sorcerer == True`.
The `Script` model has no column `is_syntax_sorcerer`
(models.py:463-484), so this plain class-attribute lookup raises
`AttributeError` before any query runs; no filter value ever exists,
hence the `Empty` payload.  (Lines 110-113 would fail the same way —
`is_innovative`, `is_trailblazing`, `is_collaborative`, `Like.author_id`
— and line 114 sums a relationship; none of them is ever reached.) -/
def scriptIsSyntaxSorcererFilter : Except PyExn Empty :=
  .error .attributeError

/-- Observable outcome of one call of
`check_and_award_trophies_and_challenges`: the exception if one escaped
(always re-raised as `DatabaseError` by the handler at line 217), the
Python return value (the body has no `return` statement), the award
lists the call built, the committed database state, and how many
`commit()` calls were reached. -/
structure EvalOutcome where
  error : Option PyExn
  retVal : Option (List String × List (String × String))
  grantedTrophies : List String
  grantedChallenges : List (String × String)
  db : Db
  commits : Nat
deriving DecidableEq, Repr

/-- Lines 105-218, `check_and_award_trophies_and_challenges`.  Line 108
computes `script_count`; line 109 then raises `AttributeError` (the
`Script` model has no `is_syntax_sorcerer` column), the exception aborts
the `try` block before any further metric, any award staging and any
commit, and the handler at line 217 re-raises `DatabaseError`.  Every
call therefore fails with zero commits, an unchanged database, no
granted outcomes and no return value; the rule chains at lines 122-199
and the commits at lines 205/215 are dead code. -/
def check_and_award_trophies_and_challenges (th : Thresholds) (now : Nat)
    (db : Db) (uid : Nat) : EvalOutcome :=
  let _scriptCnt := scriptCount db uid
  match scriptIsSyntaxSorcererFilter with
  | .error _ =>
    { error := some .databaseError, retVal := none, grantedTrophies := [],
      grantedChallenges := [], db := db, commits := 0 }
  | .ok e => e.elim

/-! ## Direct award operations -/

/-- A `Trophy` object as `_award_item` constructs it (line 45):
`name` and `user_id` set, the three NOT NULL catalog columns left
unset. -/
structure StagedTrophy where
  name : String
  userId : Nat
  description : Option String := none
  trophyLevel : Option String := none
  status : Option String := none
deriving DecidableEq, Repr

/-- The NOT NULL constraint check the database runs on a staged `Trophy`
at commit: `description`, `trophy_level` and `status` are all
`nullable=False` (models.py:311-320). -/
def trophyInsertOk (t : StagedTrophy) : Bool :=
  t.description.isSome && t.trophyLevel.isSome && t.status.isSome

/-- Lines 42-52 and 220-222, `award_trophy` via `_award_item`: construct
`Trophy(name, user_id)`, add, commit.  The constructor never sets the
three NOT NULL columns, so the commit raises `IntegrityError`,
`_award_item` rolls back and raises `DatabaseError`: no row is inserted,
no counter is touched, and the database is returned unchanged. -/
def award_trophy (db : Db) (uid : Nat) (trophyName : String) :
    Except PyExn TrophyRow × Db :=
  let staged : StagedTrophy := { name := trophyName, userId := uid }
  if trophyInsertOk staged then
    (.ok { name := staged.name, userId := staged.userId },
     { db with trophies := db.trophies ++ [{ name := staged.name, userId := staged.userId }] })
  else
    (.error .databaseError, db)

/-- Update of the first user row with the given id (the ORM object
`db.get(User, uid)` refers to one row). -/
def updateFirstUser (l : List UserRow) (uid : Nat) (f : UserRow → UserRow) : List UserRow :=
  match l with
  | [] => []
  | u :: rest => if u.id == uid then f u :: rest else u :: updateFirstUser rest uid f

/-- Lines 372-380, `award_user_badge`: insert the `UserBadge` join row
and bump `user_badges_count` — all real columns, so the operation
succeeds — with no existence check for the (user, badge) pair and no
uniqueness constraint on the table.  There is no try/except: a missing
user row makes `user.user_badges_count` an `AttributeError` on `None`,
which escapes raw. -/
def award_user_badge (db : Db) (uid : Nat) (badgeId : Nat) :
    Except PyExn (Db × UserBadgeRow) :=
  let row : UserBadgeRow := { userId := uid, badgeId := badgeId }
  match db.users.find? (fun u => u.id == uid) with
  | none => .error .attributeError
  | some _ =>
    .ok ({ db with
            userBadges := db.userBadges ++ [row],
            users := updateFirstUser db.users uid (fun u =>
              { u with userBadgesCount := u.userBadgesCount + 1 }) },
         row)

/-! ## The getters (`_get_item` and its wrappers) -/

/-- The body of `_get_item`'s try block (lines 56-60): `db.get`, then
`raise ItemNotFoundError` when no row came back. -/
def getItemInner {α : Type} (found : Option α) : Except PyExn α :=
  match found with
  | none => .error .itemNotFoundError
  | some x => .ok x

/-- An `except Exception: raise DatabaseError(...)` handler: any
exception — including the `ItemNotFoundError` raised one line above —
is replaced by `DatabaseError`. -/
def wrapDatabaseError {α : Type} (r : Except PyExn α) : Except PyExn α :=
  match r with
  | .error _ => .error .databaseError
  | .ok x => .ok x

/-- Lines 54-62, `_get_item`: the try block followed by the blanket
handler. -/
def getItem {α : Type} (found : Option α) : Except PyExn α :=
  wrapDatabaseError (getItemInner found)

/-- Lines 280-283, `get_trophy`: `_get_item(Trophy, trophy_id)`. -/
def get_trophy (db : Db) (trophyId : Nat) : Except PyExn TrophyRow :=
  getItem (db.trophies.find? (fun t => t.id == trophyId))

/-- Lines 359-362, `get_challenge`: `_get_item(Challenge, challenge_id)`. -/
def get_challenge (db : Db) (challengeId : Nat) : Except PyExn ChallengeRow :=
  getItem (db.challenges.find? (fun c => c.id == challengeId))

/-! ## The derived boolean predicates (lines 224-252) -/

/-- The ordering expression `desc(Script.views)` (line 234):
`Script.views` is an ORM relationship to `ScriptView` rows
(models.py:478), not a column, so no valid ORDER BY expression exists —
the attempt raises inside the predicate's try block.  The `Empty`
payload records that no ordering value is ever produced. -/
def orderByScriptViewsDesc : Except PyExn Empty :=
  .error .argumentError

/-- The ordering expression `desc(Script.likes)` (line 249):
`Script.likes` is a relationship (models.py:475), not a column; as with
`orderByScriptViewsDesc`, the attempt raises. -/
def orderByScriptLikesDesc : Except PyExn Empty :=
  .error .argumentError

/-- Lines 224-237, `is_trending_script_of_the_week`: the query orders by
`desc(Script.views)`, which raises, and the handler at lines 236-237
wraps the error into `DatabaseError`; the method never returns a
boolean, so no existence check is ever performed. -/
def is_trending_script_of_the_week (db : Db) (uid : Nat) (now : Nat) :
    Except PyExn Bool :=
  wrapDatabaseError
    (match orderByScriptViewsDesc with
     | .error e => .error e
     | .ok e => e.elim)

/-- Lines 239-252, `is_top_coder_of_the_month`: same shape as
`is_trending_script_of_the_week` with `desc(Script.likes)`; every call
raises `DatabaseError`. -/
def is_top_coder_of_the_month (db : Db) (uid : Nat) (now : Nat) :
    Except PyExn Bool :=
  wrapDatabaseError
    (match orderByScriptLikesDesc with
     | .error e => .error e
     | .ok e => e.elim)

/-! ## The rule chains of lines 122-199 as dead code

The evaluation never reaches line 122 (every call dies at line 109), so
the chains below are an embedding of dead source text: pure functions of
the local metric variables the chain would read, gathered in a
`Snapshot` record, used only to examine the comparison operators the
chain is written with. -/

/-- The local metric variables of lines 108-120 and 171-186 as the rule
chain would read them, as hypothetical inputs — in the program they are
never all computed (the aggregation raises at line 109, and the
`trending` / `topCoder` booleans come from predicates that themselves
always raise, see `is_trending_script_of_the_week`). -/
structure Snapshot where
  scriptCount : Nat
  syntaxSorcererCount : Nat
  innovatorCount : Nat
  trailblazerCount : Nat
  collaboratorCount : Nat
  likeCountOnScripts : Nat
  viewSum : Option Nat
  flagCount : Nat
  helpAnswerCount : Nat
  blogPostCount : Nat
  likeCountOnPosts : Nat
  crossLanguageCount : Nat
  likeCount : Nat
  trending : Bool
  topCoder : Bool
  dailyUploadCount : Nat
  weeklyUpvoterCount : Nat
  pythonistaCount : Nat
  blogPostWeekCount : Nat
  blogPostMonthCount : Nat
  likeCountOnPostsMonth : Nat
deriving DecidableEq, Repr

/-- The Python comparison `a >= b` where `a` may be `None` (SQL `SUM`
over zero rows); `None >= b` raises `TypeError`. -/
def pyGe (a : Option Nat) (b : Nat) : Except PyExn Bool :=
  match a with
  | none => .error .typeError
  | some v => .ok (decide (b ≤ v))

/-- The trophy rule chain, lines 128-169, given the outcome of the
`view_sum >= MASTERMIND_THRESHOLD` comparison.  Appends follow source
order; every comparison is the source's `>=`. -/
def trophyNames (th : Thresholds) (s : Snapshot) (mastermind : Bool) : List String :=
  let l : List String := []
  let l := if th.rookieContributor ≤ s.scriptCount then l ++ ["Rookie Contributor"] else l
  let l := if th.syntaxSorcerer ≤ s.syntaxSorcererCount then l ++ ["Syntax Sorcerer"] else l
  let l := if th.crossLanguageWizard ≤ s.crossLanguageCount then l ++ ["Cross-Language Wizard"] else l
  let l := if th.popularCreator ≤ s.likeCountOnScripts then l ++ ["Popular Creator"] else l
  let l := if mastermind then l ++ ["Mastermind"] else l
  let l := if th.reviewer ≤ s.likeCount then l ++ ["Reviewer"] else l
  let l := if s.trending then l ++ ["Trendsetter"] else l
  let l := if th.bugHunter ≤ s.flagCount then l ++ ["Bug Hunter"] else l
  let l := if th.helper ≤ s.helpAnswerCount then l ++ ["Helper"] else l
  let l := if s.topCoder then l ++ ["Top Coder"] else l
  let l := if th.blogWriter ≤ s.blogPostCount then l ++ ["Blog Writer"] else l
  let l := if th.popularBlogger ≤ s.likeCountOnPosts then l ++ ["Popular Blogger"] else l
  let l := if th.prolificBlogger ≤ s.blogPostCount then l ++ ["Prolific Blogger"] else l
  let l := if th.blogInfluencer ≤ s.likeCountOnPosts then l ++ ["Blog Influencer"] else l
  let l := if th.bronze ≤ s.scriptCount then l ++ ["Bronze Trophy"] else l
  let l := if th.silver ≤ s.scriptCount then l ++ ["Silver Trophy"] else l
  let l := if th.gold ≤ s.scriptCount then l ++ ["Gold Trophy"] else l
  let l := if th.polymath ≤ s.syntaxSorcererCount then l ++ ["Polymath Trophy"] else l
  let l := if th.innovator ≤ s.innovatorCount then l ++ ["Innovator Trophy"] else l
  let l := if th.trailblazer ≤ s.trailblazerCount then l ++ ["Trailblazer Trophy"] else l
  let l := if th.collaborator ≤ s.collaboratorCount then l ++ ["Collaborator Trophy"] else l
  l

/-- The value `trophies_to_award` would take: the comparison at line 136
raises `TypeError` when `view_sum` is NULL, aborting the whole chain,
otherwise the chain runs to the end. -/
def trophiesToAward (th : Thresholds) (s : Snapshot) : Except PyExn (List String) :=
  (pyGe s.viewSum th.mastermind).map (trophyNames th s)

/-- The challenge rule chain, lines 188-199: `(name, reward)` pairs in
source order; every comparison is the source's `>=`. -/
def challengesToAward (th : Thresholds) (s : Snapshot) : List (String × String) :=
  let l : List (String × String) := []
  let l := if th.dailyUpload ≤ s.dailyUploadCount then l ++ [("Daily Upload", "100 bonus XP")] else l
  let l := if th.weeklyUpvoter ≤ s.weeklyUpvoterCount then l ++ [("Weekly Upvoter", "Reviewer badge")] else l
  let l := if 1 ≤ s.pythonistaCount then l ++ [("Pythonista", "Pythonista badge")] else l
  let l := if 1 ≤ s.blogPostWeekCount then l ++ [("Blogger", "Blogger badge")] else l
  let l := if th.prolificBloggerMonth ≤ s.blogPostMonthCount then l ++ [("Prolific Blogger", "Prolific Blogger badge")] else l
  let l := if th.blogInfluencerMonth ≤ s.likeCountOnPostsMonth then l ++ [("Blog Influencer", "Blog Influencer badge")] else l
  l

/-! ## Statement helpers -/

/-- Number of `Trophy` rows of a user. -/
def trophyRowsOf (db : Db) (uid : Nat) : Nat :=
  (db.trophies.filter (fun t => t.userId == uid)).length

/-- The denormalized `trophies_count` of the user's row, when the row
exists. -/
def trophiesCounterOf (db : Db) (uid : Nat) : Option Nat :=
  (db.users.find? (fun u => u.id == uid)).map (fun u => u.trophiesCount)

/-- Number of `UserBadge` rows for a (user, badge) pair. -/
def userBadgeAwardCount (db : Db) (uid bid : Nat) : Nat :=
  (db.userBadges.filter (fun b => b.userId == uid && b.badgeId == bid)).length

/-- The inclusive-threshold property of the (dead-code) rule chains: the
comparison at line 136 succeeded (so the chain returns a list `L`), and
membership of each threshold-ruled outcome in its chain holds exactly
when the rule's metric is `>=` its threshold — in particular the
"Rookie Contributor" boundary is inclusive at the chain level. -/
def inclusiveRuleSpec (th : Thresholds) (s : Snapshot) (v : Nat) : Prop :=
  ∃ L, trophiesToAward th s = .ok L ∧
    (("Rookie Contributor" ∈ L) ↔ th.rookieContributor ≤ s.scriptCount) ∧
    (s.scriptCount + 1 = th.rookieContributor → "Rookie Contributor" ∉ L) ∧
    (s.scriptCount = th.rookieContributor → "Rookie Contributor" ∈ L) ∧
    (("Syntax Sorcerer" ∈ L) ↔ th.syntaxSorcerer ≤ s.syntaxSorcererCount) ∧
    (("Cross-Language Wizard" ∈ L) ↔ th.crossLanguageWizard ≤ s.crossLanguageCount) ∧
    (("Popular Creator" ∈ L) ↔ th.popularCreator ≤ s.likeCountOnScripts) ∧
    (("Mastermind" ∈ L) ↔ th.mastermind ≤ v) ∧
    (("Reviewer" ∈ L) ↔ th.reviewer ≤ s.likeCount) ∧
    (("Bug Hunter" ∈ L) ↔ th.bugHunter ≤ s.flagCount) ∧
    (("Helper" ∈ L) ↔ th.helper ≤ s.helpAnswerCount) ∧
    (("Blog Writer" ∈ L) ↔ th.blogWriter ≤ s.blogPostCount) ∧
    (("Popular Blogger" ∈ L) ↔ th.popularBlogger ≤ s.likeCountOnPosts) ∧
    (("Prolific Blogger" ∈ L) ↔ th.prolificBlogger ≤ s.blogPostCount) ∧
    (("Blog Influencer" ∈ L) ↔ th.blogInfluencer ≤ s.likeCountOnPosts) ∧
    (("Bronze Trophy" ∈ L) ↔ th.bronze ≤ s.scriptCount) ∧
    (("Silver Trophy" ∈ L) ↔ th.silver ≤ s.scriptCount) ∧
    (("Gold Trophy" ∈ L) ↔ th.gold ≤ s.scriptCount) ∧
    (("Polymath Trophy" ∈ L) ↔ th.polymath ≤ s.syntaxSorcererCount) ∧
    (("Innovator Trophy" ∈ L) ↔ th.innovator ≤ s.innovatorCount) ∧
    (("Trailblazer Trophy" ∈ L) ↔ th.trailblazer ≤ s.trailblazerCount) ∧
    (("Collaborator Trophy" ∈ L) ↔ th.collaborator ≤ s.collaboratorCount) ∧
    ((("Daily Upload", "100 bonus XP") ∈ challengesToAward th s) ↔
      th.dailyUpload ≤ s.dailyUploadCount) ∧
    ((("Weekly Upvoter", "Reviewer badge") ∈ challengesToAward th s) ↔
      th.weeklyUpvoter ≤ s.weeklyUpvoterCount) ∧
    ((("Pythonista", "Pythonista badge") ∈ challengesToAward th s) ↔
      1 ≤ s.pythonistaCount) ∧
    ((("Blogger", "Blogger badge") ∈ challengesToAward th s) ↔
      1 ≤ s.blogPostWeekCount) ∧
    ((("Prolific Blogger", "Prolific Blogger badge") ∈ challengesToAward th s) ↔
      th.prolificBloggerMonth ≤ s.blogPostMonthCount) ∧
    ((("Blog Influencer", "Blog Influencer badge") ∈ challengesToAward th s) ↔
      th.blogInfluencerMonth ≤ s.likeCountOnPostsMonth)

/-! ## Concrete inputs for the scenarios and counterexamples -/

/-- A threshold configuration with `ROOKIE_CONTRIBUTOR_THRESHOLD = 5` and
every other threshold out of reach. -/
def thA : Thresholds where
  rookieContributor := 5
  syntaxSorcerer := 1000000
  crossLanguageWizard := 1000000
  popularCreator := 1000000
  mastermind := 1000000
  reviewer := 1000000
  bugHunter := 1000000
  helper := 1000000
  blogWriter := 1000000
  popularBlogger := 1000000
  prolificBlogger := 1000000
  blogInfluencer := 1000000
  bronze := 1000000
  silver := 1000000
  gold := 1000000
  polymath := 1000000
  innovator := 1000000
  trailblazer := 1000000
  collaborator := 1000000
  dailyUpload := 1000000
  weeklyUpvoter := 1000000
  prolificBloggerMonth := 1000000
  blogInfluencerMonth := 1000000

/-- An evaluation instant (2024-06-10 12:00 UTC in minutes since the
epoch); its value is never consulted, since no reachable code reads the
clock. -/
def nowT : Nat := 28632960

/-- User 1 with all counters zero and otherwise empty tables. -/
def db0 : Db where
  scripts := []
  trophies := []
  challenges := []
  userBadges := []
  users := [{ id := 1, trophiesCount := 0, userBadgesCount := 0 }]

/-- `db0` after user 1 has created five scripts. -/
def db5 : Db :=
  { db0 with scripts := List.replicate 5 { authorId := 1, language := "Lean", createdAt := 100 } }

/-- The database state after awarding badge 7 to user 1 twice in a row,
when both calls succeed. -/
def dbAfterTwoBadgeAwards : Option Db :=
  match award_user_badge db0 1 7 with
  | .error _ => none
  | .ok (d1, _) =>
    match award_user_badge d1 1 7 with
    | .error _ => none
    | .ok (d2, _) => some d2

/-- A hypothetical bundle of chain locals for a five-script user: script
count 5, view sum 15, everything else zero or false. -/
def snapB : Snapshot where
  scriptCount := 5
  syntaxSorcererCount := 0
  innovatorCount := 0
  trailblazerCount := 0
  collaboratorCount := 0
  likeCountOnScripts := 0
  viewSum := some 15
  flagCount := 0
  helpAnswerCount := 0
  blogPostCount := 0
  likeCountOnPosts := 0
  crossLanguageCount := 1
  likeCount := 0
  trending := false
  topCoder := false
  dailyUploadCount := 0
  weeklyUpvoterCount := 0
  pythonistaCount := 0
  blogPostWeekCount := 0
  blogPostMonthCount := 0
  likeCountOnPostsMonth := 0

/-! ## Helper lemmas -/

/-- Membership in one step of the `if`-append rule chains. -/
theorem mem_ite_append {α : Type} (y a : α) (c : Prop) [Decidable c] (l : List α) :
    (y ∈ if c then l ++ [a] else l) ↔ y ∈ l ∨ (c ∧ y = a) := by
  split
  case isTrue h => simp [h]
  case isFalse h => simp [h]

/-! ## Claim theorems -/

/-- C1.  The evaluation entry point never completes: every call — first
or second, for every user and every database state — raises
`DatabaseError` (the `AttributeError` from the nonexistent
`Script.is_syntax_sorcerer` column at line 109, wrapped at line 217),
grants nothing, commits nothing and leaves the database (hence both
counters) unchanged.  No call ever yields a list of newly granted
outcomes, so the claim's picture of a completing, idempotent evaluation
does not match the code. -/
theorem C1_every_call_raises (th : Thresholds) (now : Nat) (db : Db) (uid : Nat) :
    (check_and_award_trophies_and_challenges th now db uid).error =
      some PyExn.databaseError ∧
    (check_and_award_trophies_and_challenges th now db uid).grantedTrophies = [] ∧
    (check_and_award_trophies_and_challenges th now db uid).grantedChallenges = [] ∧
    (check_and_award_trophies_and_challenges th now db uid).commits = 0 ∧
    (check_and_award_trophies_and_challenges th now db uid).db = db ∧
    (check_and_award_trophies_and_challenges th now
      (check_and_award_trophies_and_challenges th now db uid).db uid).error =
        some PyExn.databaseError ∧
    (check_and_award_trophies_and_challenges th now
      (check_and_award_trophies_and_challenges th now db uid).db uid).db = db :=
  ⟨rfl, rfl, rfl, rfl, rfl, rfl, rfl⟩

/-- C2.  Duplicate awards do occur on the one award path that works:
two `award_user_badge` calls for the same (user, badge) pair insert two
`UserBadge` rows, since the method performs no existence check and the
table has no uniqueness constraint.  (Trophy rows are never duplicated
only because no trophy insert ever succeeds.) -/
theorem C2_duplicate_badge_rows :
    dbAfterTwoBadgeAwards.map (fun d => userBadgeAwardCount d 1 7) = some 2 := by
  decide

/-- C3.  The counter equality `trophies_count = count(Trophy rows)` is
preserved by both award-creating operations — degenerately: neither
operation ever modifies the database.  The evaluation raises at line 109
before staging anything, and `award_trophy`'s insert violates the
Trophy table's NOT NULL columns, is rolled back, and raises
`DatabaseError` without inserting a row or touching the counter. -/
theorem C3_counter_invariant_preserved (th : Thresholds) (now : Nat) (db : Db)
    (uid n : Nat) (tn : String)
    (hcnt : trophiesCounterOf db uid = some n)
    (hinv : n = trophyRowsOf db uid) :
    trophiesCounterOf (check_and_award_trophies_and_challenges th now db uid).db uid =
      some (trophyRowsOf (check_and_award_trophies_and_challenges th now db uid).db uid) ∧
    trophiesCounterOf (award_trophy db uid tn).2 uid =
      some (trophyRowsOf (award_trophy db uid tn).2 uid) := by
  constructor
  · show trophiesCounterOf db uid = some (trophyRowsOf db uid)
    rw [hcnt, hinv]
  · show trophiesCounterOf db uid = some (trophyRowsOf db uid)
    rw [hcnt, hinv]

/-- C3 witness: the invariant at user 1 of the empty store survives an
evaluation call and an `award_trophy` call (both of which fail without
writing). -/
theorem C3_counter_invariant_preserved_witness :
    trophiesCounterOf (check_and_award_trophies_and_challenges thA nowT db0 1).db 1 =
      some (trophyRowsOf (check_and_award_trophies_and_challenges thA nowT db0 1).db 1) ∧
    trophiesCounterOf (award_trophy db0 1 "Special").2 1 =
      some (trophyRowsOf (award_trophy db0 1 "Special").2 1) :=
  C3_counter_invariant_preserved thA nowT db0 1 0 "Special" (by decide) (by decide)

/-- C4 counterexample.  A concrete evaluation call performs zero
commits, not the claimed exactly one: it raises `DatabaseError` at line
109 before any commit is reached. -/
theorem C4_zero_commits_counterexample :
    (check_and_award_trophies_and_challenges thA nowT db5 1).commits = 0 ∧
    (check_and_award_trophies_and_challenges thA nowT db5 1).error =
      some PyExn.databaseError :=
  ⟨rfl, rfl⟩

/-- C4 amended.  Every evaluation call fails before reaching any commit:
zero commits (not one), `DatabaseError` raised, and the database
unchanged — so the no-partial-awarding half of the claim holds
vacuously, while the exactly-one-commit half is false. -/
theorem C4_no_commit_ever (th : Thresholds) (now : Nat) (db : Db) (uid : Nat) :
    (check_and_award_trophies_and_challenges th now db uid).commits = 0 ∧
    (check_and_award_trophies_and_challenges th now db uid).error =
      some PyExn.databaseError ∧
    (check_and_award_trophies_and_challenges th now db uid).db = db :=
  ⟨rfl, rfl, rfl⟩

/-- C5.  No call of the evaluation entry point ever succeeds or returns
a value: every call raises `DatabaseError` (line 109's `AttributeError`
wrapped at line 217), nothing is granted or persisted, and the body has
no `return` statement in any case.  The raise-`DatabaseError`-on-failure
half of the claim is exactly what happens — on every call. -/
theorem C5_never_returns_always_database_error (th : Thresholds) (now : Nat)
    (db : Db) (uid : Nat) :
    (check_and_award_trophies_and_challenges th now db uid).retVal = none ∧
    (check_and_award_trophies_and_challenges th now db uid).error =
      some PyExn.databaseError ∧
    (check_and_award_trophies_and_challenges th now db uid).grantedTrophies = [] ∧
    (check_and_award_trophies_and_challenges th now db uid).db = db :=
  ⟨rfl, rfl, rfl, rfl⟩

/-- C6.  Both phases of the scenario fail on the code: with 0 scripts
the evaluation raises `DatabaseError` (not a success with no trophies),
and after the user creates 5 scripts (threshold 5) the evaluation
raises `DatabaseError` all the same — no "Rookie Contributor" outcome
is returned, no `Trophy` row is inserted, and `trophies_count` stays 0.
Both calls die at line 109 (`Script.is_syntax_sorcerer` does not
exist), before the rule chain and the inserts. -/
theorem C6_scenario_raises_both_phases :
    scriptCount db0 1 = 0 ∧
    scriptCount db5 1 = 5 ∧
    thA.rookieContributor = 5 ∧
    (check_and_award_trophies_and_challenges thA nowT db0 1).error =
      some PyExn.databaseError ∧
    (check_and_award_trophies_and_challenges thA nowT db0 1).db = db0 ∧
    (check_and_award_trophies_and_challenges thA nowT db5 1).error =
      some PyExn.databaseError ∧
    (check_and_award_trophies_and_challenges thA nowT db5 1).grantedTrophies = [] ∧
    (check_and_award_trophies_and_challenges thA nowT db5 1).db.trophies = [] ∧
    trophiesCounterOf (check_and_award_trophies_and_challenges thA nowT db5 1).db 1 =
      some 0 := by
  decide

/-- C7 counterexample.  A user whose script count equals
`ROOKIE_CONTRIBUTOR_THRESHOLD` is not selected for "Rookie Contributor"
by the evaluation: the call raises `DatabaseError` at line 109 and
selects nothing, so the claim's positive half fails at this concrete
input. -/
theorem C7_threshold_user_not_selected :
    scriptCount db5 1 = thA.rookieContributor ∧
    (check_and_award_trophies_and_challenges thA nowT db5 1).error =
      some PyExn.databaseError ∧
    (check_and_award_trophies_and_challenges thA nowT db5 1).grantedTrophies = [] := by
  decide

/-- C7 amended.  Every threshold rule in the rule chains of lines
128-199 compares its metric with inclusive `>=` (never `>` or a range):
at the chain level, a snapshot with script count `threshold - 1` does
not select "Rookie Contributor" and one at the threshold does, and
likewise for every other threshold-ruled outcome.  The chains, however,
are dead code — the evaluation raises at line 109 on every call — so
the evaluation itself never selects any outcome
(`C7_threshold_user_not_selected`). -/
theorem C7_rule_chain_inclusive (th : Thresholds) (s : Snapshot) (v : Nat)
    (h : s.viewSum = some v) : inclusiveRuleSpec th s v := by
  unfold inclusiveRuleSpec
  refine ⟨trophyNames th s (decide (th.mastermind ≤ v)), ?_⟩
  and_intros
  all_goals
    simp [trophiesToAward, pyGe, h, Except.map, trophyNames, challengesToAward,
      mem_ite_append]
  all_goals omega

/-- C7 witness: the chain-level inclusive-rule property instantiated at
a concrete five-script snapshot. -/
theorem C7_rule_chain_inclusive_witness :
    snapB.viewSum = some 15 ∧ inclusiveRuleSpec thA snapB 15 :=
  ⟨rfl, C7_rule_chain_inclusive thA snapB 15 rfl⟩

/-- C8.  The windowed metrics are never computed: every evaluation call
raises `DatabaseError` at line 109, before `daily_upload_count` (line
171) and the month-windowed like metric (lines 184-186) are reached, and
grants no challenge.  (Even in isolation those queries are broken:
`Like.author_id` does not exist, and the month filter as written tests
`BlogPost.created_at` of an unjoined table, never the like's own
timestamp.)  So no windowed-isolation behavior exists to observe. -/
theorem C8_windowed_metrics_never_computed (th : Thresholds) (now : Nat)
    (db : Db) (uid : Nat) :
    (check_and_award_trophies_and_challenges th now db uid).error =
      some PyExn.databaseError ∧
    (check_and_award_trophies_and_challenges th now db uid).grantedChallenges = [] ∧
    (check_and_award_trophies_and_challenges th now db uid).db = db :=
  ⟨rfl, rfl, rfl⟩

/-- C9.  Neither predicate ever returns a boolean, so neither is the
claimed existence check: the queries order by `desc(Script.views)` /
`desc(Script.likes)`, which are ORM relationships rather than columns,
the ordering construction raises, and each method's handler wraps the
error into `DatabaseError` on every call, for every database state and
user. -/
theorem C9_predicates_never_return_a_boolean (db : Db) (uid now : Nat) :
    is_trending_script_of_the_week db uid now = .error PyExn.databaseError ∧
    is_top_coder_of_the_month db uid now = .error PyExn.databaseError :=
  ⟨rfl, rfl⟩

/-- C10.  A getter invoked with the id of a missing item does not raise
`ItemNotFoundError` to its caller: the `ItemNotFoundError` raised inside
`_get_item`'s try block is caught by the blanket `except Exception` one
line below and re-raised as `DatabaseError`. -/
theorem C10_missing_item_raises_database_error :
    getItemInner (db0.trophies.find? (fun t => t.id == 5)) =
      .error PyExn.itemNotFoundError ∧
    get_trophy db0 5 = .error PyExn.databaseError ∧
    get_challenge db0 5 = .error PyExn.databaseError :=
  ⟨rfl, rfl, rfl⟩

end ClubDev
